import Mathlib

/-!
# Verification of `svg-map-generator` (`src/mapGenerator.js`)

A shallow embedding of the map renderer in `src/mapGenerator.js`.  The
renderer composes a cartographic projection, optional bounds fitting, a
graticule grid and a list of datasets into an SVG document.

External collaborators are modelled abstractly:
* the d3 projection objects are modelled as a `Projection` record whose
  fields record the configuration calls made on them (`scale`, `translate`,
  `rotate`, `fitExtent`); the projection math itself lives in the external
  library and is not reimplemented;
* the dataset loader `loadDataset` is a parameter of `generateMap`
  (returning `none` models a thrown `LoadError`);
* the SVG document is the list of elements appended to it, in order; the
  serialisation and the file write are outside the model.

JavaScript's `Number()` conversion is modelled for decimal literals (the
forms relevant to coordinates): whitespace-trimmed, empty string ↦ 0,
optional sign, integer/fraction digits; any other string ↦ `none` (NaN).
-/

namespace MapGen

/-- Split a character list at every occurrence of `sep`, JavaScript
`String.prototype.split` style: the empty list yields `[[]]` (JS
`"".split(',') === ['']`), adjacent separators yield empty groups. -/
def splitCharsOn (sep : Char) : List Char → List (List Char)
  | [] => [[]]
  | c :: rest =>
    match splitCharsOn sep rest with
    | [] => [[c]]
    | g :: gs => if c = sep then [] :: g :: gs else (c :: g) :: gs

/-- JavaScript `s.split(sep)` for a one-character separator. -/
def jsSplit (s : String) (sep : Char) : List String :=
  (splitCharsOn sep s.data).map String.mk

/-- The whitespace characters JavaScript `trim` strips (ASCII subset). -/
def isJsWhitespace (c : Char) : Bool :=
  c = ' ' || c = '\t' || c = '\n' || c = '\r' || c = '\x0b' || c = '\x0c'

/-- JavaScript `s.trim()`: strip leading and trailing whitespace. -/
def jsTrim (s : String) : String :=
  String.mk (((s.data.dropWhile isJsWhitespace).reverse.dropWhile isJsWhitespace).reverse)

/-- ASCII upper-casing of one character (JS `toUpperCase` restricted to
the ASCII identifiers this program compares). -/
def asciiUpper (c : Char) : Char :=
  if 'a' ≤ c && c ≤ 'z' then Char.ofNat (c.toNat - 32) else c

/-- ASCII lower-casing of one character. -/
def asciiLower (c : Char) : Char :=
  if 'A' ≤ c && c ≤ 'Z' then Char.ofNat (c.toNat + 32) else c

/-- JavaScript `s.toUpperCase()` (ASCII). -/
def jsToUpper (s : String) : String := String.mk (s.data.map asciiUpper)

/-- JavaScript `s.toLowerCase()` (ASCII). -/
def jsToLower (s : String) : String := String.mk (s.data.map asciiLower)

/-- Digits of a nonempty all-digit character list, as a natural number;
`none` when empty or when a non-digit occurs. -/
def parseDigits (cs : List Char) : Option Nat :=
  if cs.isEmpty then none
  else cs.foldlM (fun acc c => if c.isDigit then some (acc * 10 + (c.toNat - 48)) else none) 0

/-- An unsigned decimal literal: `"123"`, `"123."`, `".5"`, `"12.34"`. -/
def parseUnsignedDecimal (t : List Char) : Option ℚ :=
  match splitCharsOn '.' t with
  | [intPart] => (parseDigits intPart).map (fun n => (n : ℚ))
  | [intPart, fracPart] =>
    if intPart.isEmpty && fracPart.isEmpty then none
    else
      match (if intPart.isEmpty then some 0 else parseDigits intPart),
            (if fracPart.isEmpty then some 0 else parseDigits fracPart) with
      | some i, some f => some ((i : ℚ) + (f : ℚ) / ((10 : ℚ) ^ fracPart.length))
      | _, _ => none
  | _ => none

/-- Model of JavaScript `Number(s)` on strings, restricted to decimal
notation (the forms coordinates take); `none` models `NaN`. -/
def parseJSNumber (s : String) : Option ℚ :=
  match (jsTrim s).data with
  | [] => some 0
  | '-' :: rest => (parseUnsignedDecimal rest).map (fun q => -q)
  | '+' :: rest => parseUnsignedDecimal rest
  | t => parseUnsignedDecimal t

/-- Canvas width (`const WIDTH = 1200`). -/
def WIDTH : ℚ := 1200

/-- Canvas height (`const HEIGHT = 800`). -/
def HEIGHT : ℚ := 800

/-- The projection variant selected by `setupProjection`'s `switch`. -/
inductive ProjKind where
  | waterman
  | winkel3
  deriving DecidableEq, Repr

/-- The scale/translate configuration of a projection: either the explicit
`.scale(..).translate(..)` pair from setup, or the result of a later
`fitExtent(extent, feature)` call, which replaces it (the fitted scale and
translate are computed by the external library from the extent and the
feature's polygon ring, so the model records those inputs). -/
inductive ScaleTranslate where
  | explicit (scale : ℚ) (translate : ℚ × ℚ)
  | fittedTo (extent : (ℚ × ℚ) × (ℚ × ℚ)) (ring : List (ℚ × ℚ))
  deriving DecidableEq, Repr

/-- A configured d3 projection, as the record of the configuration calls
made on it.  `rotation = none` is the library default rotation `[0,0,0]`
(no `rotate` call was made). -/
structure Projection where
  kind : ProjKind
  st : ScaleTranslate
  rotation : Option (ℚ × ℚ × ℚ) := none
  deriving DecidableEq, Repr

/-- The errors `mapGenerator.js` can raise (plus the propagated loader
failure). -/
inductive MapError where
  | unsupportedProjection (projectionType : String)
  | invalidBounds
  | loadError (dataset : String)
  deriving DecidableEq, Repr

/-- The first two comma-separated components, as numbers, from
`const [lat, lon] = center.split(',').map(Number)` followed by the
`!isNaN(lat) && !isNaN(lon)` guard: `none` when either destructured
component is missing (JS `undefined` ↦ `NaN`) or fails to parse. -/
def parseCenterComponents (comps : List String) : Option (ℚ × ℚ) :=
  match (comps.get? 0).bind parseJSNumber, (comps.get? 1).bind parseJSNumber with
  | some lat, some lon => some (lat, lon)
  | _, _ => none

/-- The `if (center) { ... }` block of `setupProjection`: rotate by
`[lon, lat, 0]` when both components of `"lat,lon"` parse, otherwise leave
the projection unchanged.  An empty string is falsy in JS, so it skips the
block. -/
def applyCenter (proj : Projection) (center : Option String) : Projection :=
  match center with
  | none => proj
  | some c =>
    if c = "" then proj
    else
      match parseCenterComponents (jsSplit c ',') with
      | some (lat, lon) => { proj with rotation := some (lon, lat, 0) }
      | none => proj

/-- `setupProjection(projectionType, center)`: switch on the upper-cased
identifier; `'WB'` ↦ Waterman butterfly with scale `WIDTH/10` translated to
the canvas center, `'W3'` ↦ Winkel tripel with scale `WIDTH/6` translated to
the canvas center, anything else throws naming the identifier; then the
optional center rotation. -/
def setupProjection (projectionType : String) (center : Option String) :
    Except MapError Projection :=
  if jsToUpper projectionType = "WB" then
    .ok (applyCenter ⟨.waterman, .explicit (WIDTH / 10) (WIDTH / 2, HEIGHT / 2), none⟩ center)
  else if jsToUpper projectionType = "W3" then
    .ok (applyCenter ⟨.winkel3, .explicit (WIDTH / 6) (WIDTH / 2, HEIGHT / 2), none⟩ center)
  else
    .error (.unsupportedProjection projectionType)

/-- The first four comma-separated components, as numbers, from
`const [minLat, maxLat, minLon, maxLon] = bounds.split(',').map(Number)`
followed by the `.some(isNaN)` guard: `none` when any of the four
destructured components is missing (JS `undefined` ↦ `NaN`) or fails to
parse. -/
def parseBoundsComponents (comps : List String) :
    Option (ℚ × ℚ × ℚ × ℚ) :=
  match (comps.get? 0).bind parseJSNumber, (comps.get? 1).bind parseJSNumber,
        (comps.get? 2).bind parseJSNumber, (comps.get? 3).bind parseJSNumber with
  | some minLat, some maxLat, some minLon, some maxLon =>
    some (minLat, maxLat, minLon, maxLon)
  | _, _, _, _ => none

/-- The closed polygon ring of the `boundingBox` feature built by
`applyBounds`, in `(lon, lat)` order. -/
def boundingRing (minLat maxLat minLon maxLon : ℚ) : List (ℚ × ℚ) :=
  [(minLon, minLat), (minLon, maxLat), (maxLon, maxLat), (maxLon, minLat), (minLon, minLat)]

/-- `applyBounds(projection, bounds)`: parse the four components (throwing
`InvalidBoundsError` when any is `NaN`), build the four-corner closed
polygon, and call `fitExtent([[0,0],[WIDTH,HEIGHT]], boundingBox)` on the
projection. -/
def applyBounds (proj : Projection) (bounds : String) : Except MapError Projection :=
  match parseBoundsComponents (jsSplit bounds ',') with
  | none => .error .invalidBounds
  | some (minLat, maxLat, minLon, maxLon) =>
    .ok { proj with
          st := .fittedTo ((0, 0), (WIDTH, HEIGHT))
                  (boundingRing minLat maxLat minLon maxLon) }

/-- The style map: the six keys of `DEFAULT_STYLES`, all string-valued as
in the source. -/
structure Styles where
  linethickness : String
  linecolor : String
  outlinethickness : String
  outlinecolor : String
  showgraticules : String
  background : String
  deriving DecidableEq, Repr

/-- `DEFAULT_STYLES` from the source. -/
def DEFAULT_STYLES : Styles :=
  { linethickness := "1"
    linecolor := "black"
    outlinethickness := "0.5"
    outlinecolor := "black"
    showgraticules := "true"
    background := "white" }

/-- A partial style override map (`options.styles`): `none` means the key
is absent. -/
structure StyleOverrides where
  linethickness : Option String := none
  linecolor : Option String := none
  outlinethickness : Option String := none
  outlinecolor : Option String := none
  showgraticules : Option String := none
  background : Option String := none
  deriving DecidableEq, Repr

/-- `{ ...DEFAULT_STYLES, ...(options.styles || {}) }`: object spread over
the six known keys — a provided key wins, an absent key keeps its
default. -/
def mergeStyles (o : StyleOverrides) : Styles :=
  { linethickness := o.linethickness.getD DEFAULT_STYLES.linethickness
    linecolor := o.linecolor.getD DEFAULT_STYLES.linecolor
    outlinethickness := o.outlinethickness.getD DEFAULT_STYLES.outlinethickness
    outlinecolor := o.outlinecolor.getD DEFAULT_STYLES.outlinecolor
    showgraticules := o.showgraticules.getD DEFAULT_STYLES.showgraticules
    background := o.background.getD DEFAULT_STYLES.background }

/-- The elements `generateMap` appends to the SVG document, in order, with
the attributes it sets on each.  The geometry strings produced by
`geoPath()` are external library output and are not modelled; a dataset
path is identified by the dataset identifier whose loaded geometry is its
datum. -/
inductive SvgElement where
  /-- `defs > path#sphere` with datum `{type: 'Sphere'}`. -/
  | sphereDef
  /-- `defs > clipPath#clip > use[href=#sphere]`. -/
  | clipPathDef
  /-- The background `use[href=#sphere]` with its fill/stroke attributes. -/
  | backgroundUse (fill : String) (stroke : String) (strokeWidth : String)
  /-- The graticule path: `geoGraticule().step([stepLon, stepLat])`,
  clipped to `#clip`, `fill:none`, with the given stroke attributes. -/
  | graticulePath (stepLon stepLat : ℚ) (stroke strokeWidth strokeDasharray : String)
  /-- A dataset path: datum `loadDataset(dataset)`, clipped to `#clip`,
  `fill:none`, with the given stroke attributes. -/
  | datasetPath (dataset : String) (stroke : String) (strokeWidth : String)
  deriving DecidableEq, Repr

/-- The `options` record destructured at the top of `generateMap`; `none`
models an absent (`undefined`) field, for which the destructuring defaults
apply. -/
structure RenderOptions where
  projection : Option String := none
  mapdata : Option String := none
  output : Option String := none
  center : Option String := none
  bounds : Option String := none
  styles : Option StyleOverrides := none
  deriving Repr

/-- The render's observable outcome: the SVG document (as its element
list) and the projection as finally configured.  The source serialises
`doc`, writes it to `options.output` and returns the text; the file write
is outside the model. -/
structure RenderOutput where
  doc : List SvgElement
  proj : Projection
  deriving DecidableEq, Repr

/-- The dataset-drawing loop of `generateMap`: for each dataset in order,
`await loadDataset(dataset)` (a loader failure — `none` — propagates,
aborting the render) and append a path styled with the merged line
settings. -/
def drawDatasets (loader : String → Option Unit) (styles : Styles) :
    List String → Except MapError (List SvgElement)
  | [] => .ok []
  | d :: rest =>
    match loader d with
    | none => .error (.loadError d)
    | some _ =>
      match drawDatasets loader styles rest with
      | .error e => .error e
      | .ok es => .ok (.datasetPath d styles.linecolor styles.linethickness :: es)

/-- The graticule block: appended only when the merged
`styles.showgraticules.toLowerCase() === 'true'`. -/
def graticuleElems (styles : Styles) : List SvgElement :=
  if jsToLower styles.showgraticules = "true" then
    [.graticulePath 15 15 "#666" "0.5" "2,2"]
  else []

/-- `generateMap(options)`, parameterised by the external `loadDataset`
collaborator.  Destructure the options with their defaults, split the
dataset list on commas and trim each identifier, merge styles, set up the
projection, apply bounds when supplied (the empty string is falsy in JS and
skips the block), then build the document: sphere def, clip def,
background, optional graticule, one path per dataset in input order. -/
def generateMap (loader : String → Option Unit) (options : RenderOptions) :
    Except MapError RenderOutput :=
  let projection := options.projection.getD "WB"
  let mapdata := options.mapdata.getD "50mcoastline"
  let datasets := (jsSplit mapdata ',').map jsTrim
  let styles := mergeStyles (options.styles.getD {})
  match setupProjection projection options.center with
  | .error e => .error e
  | .ok proj0 =>
    let projRes : Except MapError Projection :=
      match options.bounds with
      | some b => if b = "" then .ok proj0 else applyBounds proj0 b
      | none => .ok proj0
    match projRes with
    | .error e => .error e
    | .ok proj =>
      match drawDatasets loader styles datasets with
      | .error e => .error e
      | .ok ds =>
        .ok { doc := [.sphereDef, .clipPathDef,
                      .backgroundUse styles.background styles.outlinecolor
                        styles.outlinethickness]
                     ++ graticuleElems styles ++ ds
              proj := proj }

/-- Whether an element is the graticule path. -/
def SvgElement.isGraticule : SvgElement → Bool
  | .graticulePath .. => true
  | _ => false

/-- The dataset identifiers of the document's dataset path elements, in
document order. -/
def datasetPathsOf (doc : List SvgElement) : List String :=
  doc.filterMap fun e =>
    match e with
    | .datasetPath d _ _ => some d
    | _ => none

/-- How many graticule paths the document contains. -/
def graticuleCount (doc : List SvgElement) : Nat :=
  (doc.filter SvgElement.isGraticule).length

/-! ## Helper lemmas -/

/-- The center block never changes which projection was selected. -/
theorem applyCenter_kind (p : Projection) (c : Option String) :
    (applyCenter p c).kind = p.kind := by
  rcases c with _ | c
  · rfl
  · by_cases hc : c = ""
    · simp [applyCenter, hc]
    · rcases hp : parseCenterComponents (jsSplit c ',') with _ | ⟨lat, lon⟩ <;>
        simp [applyCenter, hc, hp]

/-- The center block never changes the scale/translate configuration. -/
theorem applyCenter_st (p : Projection) (c : Option String) :
    (applyCenter p c).st = p.st := by
  rcases c with _ | c
  · rfl
  · by_cases hc : c = ""
    · simp [applyCenter, hc]
    · rcases hp : parseCenterComponents (jsSplit c ',') with _ | ⟨lat, lon⟩ <;>
        simp [applyCenter, hc, hp]

/-- The rotation after the center block: `[lon, lat, 0]` when both
components parse, the incoming rotation otherwise. -/
theorem applyCenter_rotation (p : Projection) (c : String) :
    (applyCenter p (some c)).rotation =
      (match parseCenterComponents (jsSplit c ',') with
       | some (lat, lon) => some (lon, lat, 0)
       | none => p.rotation) := by
  by_cases hc : c = ""
  · subst hc
    have h0 : parseCenterComponents (jsSplit "" ',') = none := by decide
    simp [applyCenter, h0]
  · rcases hp : parseCenterComponents (jsSplit c ',') with _ | ⟨lat, lon⟩ <;>
      simp [applyCenter, hc, hp]

/-- When every dataset loads, the loop produces one dataset path per
identifier, in order. -/
theorem drawDatasets_ok (loader : String → Option Unit) (st : Styles)
    (l : List String) (h : ∀ d ∈ l, (loader d).isSome = true) :
    drawDatasets loader st l =
      .ok (l.map fun d => .datasetPath d st.linecolor st.linethickness) := by
  induction l with
  | nil => rfl
  | cons d rest ih =>
    have hd : (loader d).isSome = true := h d (by simp)
    rcases hld : loader d with _ | u
    · rw [hld] at hd; simp at hd
    · have hrest := ih (fun e he => h e (by simp [he]))
      simp [drawDatasets, hld, hrest]

/-- The loop aborts at the first dataset whose load fails, propagating the
load error. -/
theorem drawDatasets_err (loader : String → Option Unit) (st : Styles)
    (ds1 : List String) (d : String) (ds2 : List String)
    (h1 : ∀ e ∈ ds1, (loader e).isSome = true) (hd : loader d = none) :
    drawDatasets loader st (ds1 ++ d :: ds2) = .error (.loadError d) := by
  induction ds1 with
  | nil => simp [drawDatasets, hd]
  | cons e rest ih =>
    have he : (loader e).isSome = true := h1 e (by simp)
    rcases hle : loader e with _ | u
    · rw [hle] at he; simp at he
    · have hrest := ih (fun x hx => h1 x (by simp [hx]))
      simp [drawDatasets, hle, hrest]

/-- Any successful result of the loop is exactly the list of dataset
paths, in input order. -/
theorem drawDatasets_shape (loader : String → Option Unit) (st : Styles)
    (l : List String) (es : List SvgElement)
    (h : drawDatasets loader st l = .ok es) :
    es = l.map fun d => .datasetPath d st.linecolor st.linethickness := by
  induction l generalizing es with
  | nil => simpa [drawDatasets] using h.symm
  | cons d rest ih =>
    rcases hld : loader d with _ | u
    · simp [drawDatasets, hld] at h
    · rcases hrest : drawDatasets loader st rest with e | es'
      · simp [drawDatasets, hld, hrest] at h
      · simp [drawDatasets, hld, hrest] at h
        simp [← h, ih es' hrest]

/-- The dataset-path extraction distributes over append. -/
theorem datasetPathsOf_append (l1 l2 : List SvgElement) :
    datasetPathsOf (l1 ++ l2) = datasetPathsOf l1 ++ datasetPathsOf l2 := by
  simp [datasetPathsOf, List.filterMap_append]

/-- Dataset paths of a list of dataset paths. -/
theorem datasetPathsOf_map (l : List String) (a b : String) :
    datasetPathsOf (l.map fun d => .datasetPath d a b) = l := by
  induction l with
  | nil => rfl
  | cons d rest ih => simp [datasetPathsOf, List.filterMap] at ih ⊢; exact ih

/-- No dataset path among the elements the loop produces is a
graticule. -/
theorem graticuleCount_map_datasetPath (l : List String) (a b : String) :
    graticuleCount (l.map fun d => .datasetPath d a b) = 0 := by
  induction l with
  | nil => rfl
  | cons d rest ih => simp [graticuleCount, SvgElement.isGraticule]

/-! ## The claims -/

/-- C1: for every projection identifier that case-insensitively equals
`"WB"`, setup succeeds with a Waterman butterfly projection of scale
`WIDTH/10 = 120` translated to the canvas center `(600, 400)`; for every
identifier that case-insensitively equals `"W3"`, it succeeds with a
Winkel tripel projection of scale `WIDTH/6 = 200` translated to the canvas
center. -/
theorem claim1_supported_projection_setup (s : String) (center : Option String) :
    (jsToUpper s = "WB" →
      ∃ p, setupProjection s center = .ok p ∧ p.kind = .waterman ∧
        p.st = .explicit 120 (600, 400) ∧ WIDTH / 10 = 120) ∧
    (jsToUpper s = "W3" →
      ∃ p, setupProjection s center = .ok p ∧ p.kind = .winkel3 ∧
        p.st = .explicit 200 (600, 400) ∧ WIDTH / 6 = 200) := by
  constructor
  · intro h
    refine ⟨applyCenter ⟨.waterman, .explicit (WIDTH / 10) (WIDTH / 2, HEIGHT / 2), none⟩ center,
      by simp [setupProjection, h], applyCenter_kind _ _, ?_, by norm_num [WIDTH]⟩
    rw [applyCenter_st]
    simp only [ScaleTranslate.explicit.injEq, Prod.mk.injEq]
    norm_num [WIDTH, HEIGHT]
  · intro h
    have hne : jsToUpper s ≠ "WB" := by rw [h]; decide
    refine ⟨applyCenter ⟨.winkel3, .explicit (WIDTH / 6) (WIDTH / 2, HEIGHT / 2), none⟩ center,
      by simp [setupProjection, h, hne], applyCenter_kind _ _, ?_, by norm_num [WIDTH]⟩
    rw [applyCenter_st]
    simp only [ScaleTranslate.explicit.injEq, Prod.mk.injEq]
    norm_num [WIDTH, HEIGHT]

/-- Witness for C1 at the identifiers `"wb"` and `"w3"`. -/
theorem claim1_witness :
    jsToUpper "wb" = "WB" ∧ jsToUpper "w3" = "W3" ∧
    (∃ p, setupProjection "wb" none = .ok p ∧ p.kind = .waterman ∧
      p.st = .explicit 120 (600, 400) ∧ WIDTH / 10 = 120) ∧
    (∃ p, setupProjection "w3" none = .ok p ∧ p.kind = .winkel3 ∧
      p.st = .explicit 200 (600, 400) ∧ WIDTH / 6 = 200) :=
  ⟨by decide, by decide,
   (claim1_supported_projection_setup "wb" none).1 (by decide),
   (claim1_supported_projection_setup "w3" none).2 (by decide)⟩

/-- C2: for every identifier whose case-insensitive form is neither
`"WB"` nor `"W3"`, projection setup — and hence the whole render — fails
with an unsupported-projection error naming the identifier. -/
theorem claim2_unsupported_projection (s : String) (center : Option String)
    (h1 : jsToUpper s ≠ "WB") (h2 : jsToUpper s ≠ "W3") :
    setupProjection s center = .error (.unsupportedProjection s) ∧
    ∀ (loader : String → Option Unit) (opts : RenderOptions),
      opts.projection = some s →
      generateMap loader opts = .error (.unsupportedProjection s) := by
  have hsetup : ∀ c, setupProjection s c = .error (.unsupportedProjection s) := by
    intro c; simp [setupProjection, h1, h2]
  refine ⟨hsetup center, ?_⟩
  intro loader opts hp
  simp [generateMap, hp, hsetup]

/-- Witness for C2 at the identifier `"mercator"`. -/
theorem claim2_witness :
    jsToUpper "mercator" ≠ "WB" ∧ jsToUpper "mercator" ≠ "W3" ∧
    setupProjection "mercator" none = .error (.unsupportedProjection "mercator") ∧
    generateMap (fun _ => some ()) { projection := some "mercator" } =
      .error (.unsupportedProjection "mercator") :=
  ⟨by decide, by decide,
   (claim2_unsupported_projection "mercator" none (by decide) (by decide)).1,
   (claim2_unsupported_projection "mercator" none (by decide) (by decide)).2
     (fun _ => some ()) { projection := some "mercator" } rfl⟩

/-- C3: when all four bounds components parse, `applyBounds` fits the
projection to the extent `[[0,0],[1200,800]]` on the closed ring
(minLon,minLat) → (minLon,maxLat) → (maxLon,maxLat) → (maxLon,minLat) →
(minLon,minLat) in (lon, lat) order, replacing whatever scale/translate
configuration the projection had; in a successful render with these
bounds, the final projection carries exactly this fit. -/
theorem claim3_bounds_fitting (p : Projection) (s : String)
    (minLat maxLat minLon maxLon : ℚ)
    (h : parseBoundsComponents (jsSplit s ',') = some (minLat, maxLat, minLon, maxLon)) :
    applyBounds p s =
      .ok { p with st := (.fittedTo ((0, 0), (1200, 800))
              [(minLon, minLat), (minLon, maxLat), (maxLon, maxLat),
               (maxLon, minLat), (minLon, minLat)] : ScaleTranslate) } ∧
    ∀ (loader : String → Option Unit) (opts : RenderOptions) (out : RenderOutput),
      opts.bounds = some s → generateMap loader opts = .ok out →
      out.proj.st = .fittedTo ((0, 0), (1200, 800))
        [(minLon, minLat), (minLon, maxLat), (maxLon, maxLat),
         (maxLon, minLat), (minLon, minLat)] := by
  have hsne : s ≠ "" := by
    rintro rfl
    rw [(by decide : parseBoundsComponents (jsSplit "" ',') = none)] at h
    exact Option.noConfusion h
  have hfit : ∀ q : Projection, applyBounds q s =
      .ok { q with st := (.fittedTo ((0, 0), (1200, 800))
              [(minLon, minLat), (minLon, maxLat), (maxLon, maxLat),
               (maxLon, minLat), (minLon, minLat)] : ScaleTranslate) } := by
    intro q
    simp only [applyBounds, h, boundingRing]
    norm_num [WIDTH, HEIGHT]
  refine ⟨hfit p, ?_⟩
  intro loader opts out hb hgen
  rcases hsp : setupProjection (opts.projection.getD "WB") opts.center with e | proj0
  · simp [generateMap, hb, hsp] at hgen
  · rcases hds : drawDatasets loader (mergeStyles (opts.styles.getD {}))
        ((jsSplit (opts.mapdata.getD "50mcoastline") ',').map jsTrim) with e | ds
    · simp [generateMap, hb, hsne, hsp, hfit, hds] at hgen
    · simp [generateMap, hb, hsne, hsp, hfit, hds] at hgen
      rw [← hgen]
      rfl

/-- Witness for C3 at the bounds `"10,20,30,40"`. -/
theorem claim3_witness :
    parseBoundsComponents (jsSplit "10,20,30,40" ',') = some (10, 20, 30, 40) ∧
    applyBounds ⟨.waterman, .explicit (WIDTH / 10) (WIDTH / 2, HEIGHT / 2), none⟩ "10,20,30,40" =
      .ok ⟨.waterman, .fittedTo ((0, 0), (1200, 800))
            [(30, 10), (30, 20), (40, 20), (40, 10), (30, 10)], none⟩ :=
  ⟨by decide,
   (claim3_bounds_fitting ⟨.waterman, .explicit (WIDTH / 10) (WIDTH / 2, HEIGHT / 2), none⟩
      "10,20,30,40" 10 20 30 40 (by decide)).1⟩

/-- C4: a supplied (nonempty — the empty string is falsy and skips the
block) bounds string with a component that fails to parse makes the render
fail with the invalid-bounds error, for either supported projection; no
fitted projection is produced. -/
theorem claim4_invalid_bounds (loader : String → Option Unit) (opts : RenderOptions)
    (s : String) (hb : opts.bounds = some s) (hne : s ≠ "")
    (hparse : parseBoundsComponents (jsSplit s ',') = none)
    (hproj : jsToUpper (opts.projection.getD "WB") = "WB" ∨
             jsToUpper (opts.projection.getD "WB") = "W3") :
    generateMap loader opts = .error .invalidBounds ∧
    ∀ p : Projection, applyBounds p s = .error .invalidBounds := by
  have hab : ∀ p : Projection, applyBounds p s = .error .invalidBounds := by
    intro p; simp [applyBounds, hparse]
  refine ⟨?_, hab⟩
  rcases hproj with h | h
  · simp [generateMap, hb, hne, setupProjection, h, hab]
  · have hne2 : jsToUpper (opts.projection.getD "WB") ≠ "WB" := by rw [h]; decide
    simp [generateMap, hb, hne, setupProjection, h, hne2, hab]

/-- Witness for C4 at the bounds `"10,x,30,40"`. -/
theorem claim4_witness :
    parseBoundsComponents (jsSplit "10,x,30,40" ',') = none ∧
    generateMap (fun _ => some ()) { bounds := some "10,x,30,40" } = .error .invalidBounds :=
  ⟨by decide,
   (claim4_invalid_bounds (fun _ => some ()) { bounds := some "10,x,30,40" } "10,x,30,40"
      rfl (by decide) (by decide) (Or.inl (by decide))).1⟩

/-- C5: for either supported projection identifier, a supplied center
string never makes setup fail: when either of its first two components
fails to parse the rotation is silently left at its default, and when both
parse the projection is rotated by the raw triple `[lon, lat, 0]`. -/
theorem claim5_center_leniency (s c : String)
    (hs : jsToUpper s = "WB" ∨ jsToUpper s = "W3") :
    ∃ p, setupProjection s (some c) = .ok p ∧
      (parseCenterComponents (jsSplit c ',') = none → p.rotation = none) ∧
      ∀ lat lon, parseCenterComponents (jsSplit c ',') = some (lat, lon) →
        p.rotation = some (lon, lat, 0) := by
  rcases hs with h | h
  · refine ⟨applyCenter ⟨.waterman, .explicit (WIDTH / 10) (WIDTH / 2, HEIGHT / 2), none⟩
        (some c), by simp [setupProjection, h], ?_, ?_⟩
    · intro h0; rw [applyCenter_rotation, h0]
    · intro lat lon h0; rw [applyCenter_rotation, h0]
  · have hne : jsToUpper s ≠ "WB" := by rw [h]; decide
    refine ⟨applyCenter ⟨.winkel3, .explicit (WIDTH / 6) (WIDTH / 2, HEIGHT / 2), none⟩
        (some c), by simp [setupProjection, h, hne], ?_, ?_⟩
    · intro h0; rw [applyCenter_rotation, h0]
    · intro lat lon h0; rw [applyCenter_rotation, h0]

/-- Witness for C5 at the centers `"abc,50"` (latitude unparsable: no
error, default rotation) and `"10,20"` (both parse: rotation
`[20, 10, 0]`). -/
theorem claim5_witness :
    parseCenterComponents (jsSplit "abc,50" ',') = none ∧
    (∃ p, setupProjection "WB" (some "abc,50") = .ok p ∧ p.rotation = none) ∧
    parseCenterComponents (jsSplit "10,20" ',') = some (10, 20) ∧
    (∃ p, setupProjection "WB" (some "10,20") = .ok p ∧ p.rotation = some (20, 10, 0)) := by
  refine ⟨by decide, ?_, by decide, ?_⟩
  · obtain ⟨p, hp, hnone, _⟩ := claim5_center_leniency "WB" "abc,50" (Or.inl (by decide))
    exact ⟨p, hp, hnone (by decide)⟩
  · obtain ⟨p, hp, _, hsome⟩ := claim5_center_leniency "WB" "10,20" (Or.inl (by decide))
    exact ⟨p, hp, hsome 10 20 (by decide)⟩

/-- Dataset paths are never graticules. -/
theorem filter_isGraticule_map_datasetPath (l : List String) (a b : String) :
    (l.map fun d => SvgElement.datasetPath d a b).filter SvgElement.isGraticule = [] := by
  induction l with
  | nil => rfl
  | cons d rest ih => simp [SvgElement.isGraticule, ih]

/-- Shape of every successful render's document: sphere def, clip def,
background, the graticule block, then one dataset path per trimmed
identifier, in order — all styled from the merged style map. -/
theorem generateMap_ok_doc (loader : String → Option Unit) (opts : RenderOptions)
    (out : RenderOutput) (h : generateMap loader opts = .ok out) :
    out.doc = [.sphereDef, .clipPathDef,
        .backgroundUse (mergeStyles (opts.styles.getD {})).background
          (mergeStyles (opts.styles.getD {})).outlinecolor
          (mergeStyles (opts.styles.getD {})).outlinethickness]
      ++ graticuleElems (mergeStyles (opts.styles.getD {}))
      ++ ((jsSplit (opts.mapdata.getD "50mcoastline") ',').map jsTrim).map
          (fun d => .datasetPath d (mergeStyles (opts.styles.getD {})).linecolor
            (mergeStyles (opts.styles.getD {})).linethickness) := by
  rcases hsp : setupProjection (opts.projection.getD "WB") opts.center with e | proj0
  · simp [generateMap, hsp] at h
  · rcases hds : drawDatasets loader (mergeStyles (opts.styles.getD {}))
        ((jsSplit (opts.mapdata.getD "50mcoastline") ',').map jsTrim) with e | ds
    · rcases hb : opts.bounds with _ | b
      · simp [generateMap, hsp, hb, hds] at h
      · by_cases hbe : b = ""
        · simp [generateMap, hsp, hb, hbe, hds] at h
        · rcases hab : applyBounds proj0 b with e2 | proj1
          · simp [generateMap, hsp, hb, hbe, hab] at h
          · simp [generateMap, hsp, hb, hbe, hab, hds] at h
    · have hshape := drawDatasets_shape loader (mergeStyles (opts.styles.getD {}))
        ((jsSplit (opts.mapdata.getD "50mcoastline") ',').map jsTrim) ds hds
      rcases hb : opts.bounds with _ | b
      · simp [generateMap, hsp, hb, hds] at h
        rw [← h, ← hshape]
        rfl
      · by_cases hbe : b = ""
        · simp [generateMap, hsp, hb, hbe, hds] at h
          rw [← h, ← hshape]
          rfl
        · rcases hab : applyBounds proj0 b with e2 | proj1
          · simp [generateMap, hsp, hb, hbe, hab] at h
          · simp [generateMap, hsp, hb, hbe, hab, hds] at h
            rw [← h, ← hshape]
            rfl

/-- C6: the dataset list is the comma-split, whitespace-trimmed mapdata
string; when every dataset loads, the output contains exactly one dataset
path per identifier, in input order; when a dataset fails to load, the
render aborts with that dataset's load error. -/
theorem claim6_dataset_pipeline (loader : String → Option Unit) (md : String) :
    ((∀ d ∈ (jsSplit md ',').map jsTrim, (loader d).isSome = true) →
      ∃ out, generateMap loader { mapdata := some md } = .ok out ∧
        datasetPathsOf out.doc = (jsSplit md ',').map jsTrim) ∧
    ∀ ds1 d ds2, (jsSplit md ',').map jsTrim = ds1 ++ d :: ds2 →
      (∀ e ∈ ds1, (loader e).isSome = true) → loader d = none →
      generateMap loader { mapdata := some md } = .error (.loadError d) := by
  constructor
  · intro h
    have hdd := drawDatasets_ok loader (mergeStyles {}) ((jsSplit md ',').map jsTrim) h
    refine ⟨⟨[.sphereDef, .clipPathDef,
          .backgroundUse (mergeStyles {}).background (mergeStyles {}).outlinecolor
            (mergeStyles {}).outlinethickness]
          ++ graticuleElems (mergeStyles {})
          ++ ((jsSplit md ',').map jsTrim).map
              (fun d => .datasetPath d (mergeStyles {}).linecolor (mergeStyles {}).linethickness),
        ⟨.waterman, .explicit (WIDTH / 10) (WIDTH / 2, HEIGHT / 2), none⟩⟩, ?_, ?_⟩
    · simp [generateMap, hdd]
      rfl
    · have hG : graticuleElems (mergeStyles {}) = [.graticulePath 15 15 "#666" "0.5" "2,2"] := rfl
      rw [hG, datasetPathsOf_append, datasetPathsOf_append, datasetPathsOf_map]
      rfl
  · intro ds1 d ds2 hsplitEq h1 hd
    have hdd : drawDatasets loader (mergeStyles {}) ((jsSplit md ',').map jsTrim) =
        .error (.loadError d) := by
      rw [hsplitEq]; exact drawDatasets_err loader (mergeStyles {}) ds1 d ds2 h1 hd
    have hsp : setupProjection "WB" (none : Option String) =
        .ok ⟨.waterman, .explicit (WIDTH / 10) (WIDTH / 2, HEIGHT / 2), none⟩ := rfl
    simp [generateMap, hsp, hdd]

/-- Witness for C6: mapdata `"a, b ,c"` with a total loader yields the
dataset paths `a`, `b`, `c` in order; a loader failing on `"b"` aborts
the render with the load error for `"b"`. -/
theorem claim6_witness :
    (∃ out, generateMap (fun _ => some ()) { mapdata := some "a, b ,c" } = .ok out ∧
      datasetPathsOf out.doc = (jsSplit "a, b ,c" ',').map jsTrim) ∧
    generateMap (fun d => if d = "b" then none else some ()) { mapdata := some "a,b,c" } =
      .error (.loadError "b") :=
  ⟨(claim6_dataset_pipeline (fun _ => some ()) "a, b ,c").1 (by decide),
   (claim6_dataset_pipeline (fun d => if d = "b" then none else some ()) "a,b,c").2
     ["a"] "b" ["c"] (by decide) (by decide) (by decide)⟩

/-- C7: the effective style map is the fixed default set overridden
key-by-key by the provided overrides — a provided key wins, an absent key
keeps its default — and a render uses exactly those merged values for the
background, outline, line and graticule settings. -/
theorem claim7_style_merge (o : StyleOverrides) :
    mergeStyles o =
      { linethickness := o.linethickness.getD "1"
        linecolor := o.linecolor.getD "black"
        outlinethickness := o.outlinethickness.getD "0.5"
        outlinecolor := o.outlinecolor.getD "black"
        showgraticules := o.showgraticules.getD "true"
        background := o.background.getD "white" } ∧
    ∃ out, generateMap (fun _ => some ()) { styles := some o } = .ok out ∧
      out.doc = [.sphereDef, .clipPathDef,
          .backgroundUse (o.background.getD "white") (o.outlinecolor.getD "black")
            (o.outlinethickness.getD "0.5")]
        ++ graticuleElems (mergeStyles o)
        ++ [.datasetPath "50mcoastline" (o.linecolor.getD "black") (o.linethickness.getD "1")] := by
  refine ⟨rfl, ?_⟩
  have hdd : drawDatasets (fun _ => some ()) (mergeStyles o)
      ((jsSplit "50mcoastline" ',').map jsTrim) =
      .ok [.datasetPath "50mcoastline" (mergeStyles o).linecolor
            (mergeStyles o).linethickness] := rfl
  refine ⟨⟨[.sphereDef, .clipPathDef,
        .backgroundUse (o.background.getD "white") (o.outlinecolor.getD "black")
          (o.outlinethickness.getD "0.5")]
      ++ graticuleElems (mergeStyles o)
      ++ [.datasetPath "50mcoastline" (o.linecolor.getD "black") (o.linethickness.getD "1")],
      ⟨.waterman, .explicit (WIDTH / 10) (WIDTH / 2, HEIGHT / 2), none⟩⟩, ?_, rfl⟩
  simp [generateMap, hdd]
  rfl

/-- C8: a showgraticules override reading `"false"` in any letter case
yields a document with no graticule path; leaving it unset or setting it
to `"true"` yields exactly one, built from a 15°×15° grid and styled as a
thin dashed gray line. -/
theorem claim8_graticule_toggle (loader : String → Option Unit) (opts : RenderOptions)
    (out : RenderOutput) (h : generateMap loader opts = .ok out) :
    (((opts.styles.getD {}).showgraticules = none ∨
      (opts.styles.getD {}).showgraticules = some "true") →
      out.doc.filter SvgElement.isGraticule = [.graticulePath 15 15 "#666" "0.5" "2,2"] ∧
      graticuleCount out.doc = 1) ∧
    ∀ v, (opts.styles.getD {}).showgraticules = some v → jsToLower v = "false" →
      out.doc.filter SvgElement.isGraticule = [] ∧ graticuleCount out.doc = 0 := by
  have hdoc := generateMap_ok_doc loader opts out h
  have hms : (mergeStyles (opts.styles.getD {})).showgraticules
      = (opts.styles.getD {}).showgraticules.getD "true" := rfl
  have hfilter : out.doc.filter SvgElement.isGraticule =
      (if jsToLower ((opts.styles.getD {}).showgraticules.getD "true") = "true"
       then [.graticulePath 15 15 "#666" "0.5" "2,2"] else []) := by
    rw [hdoc, ← hms]
    by_cases hg : jsToLower (mergeStyles (opts.styles.getD {})).showgraticules = "true" <;>
      simp [graticuleElems, hg, List.filter_append,
        SvgElement.isGraticule, filter_isGraticule_map_datasetPath]
  constructor
  · intro hsg
    have hcond : jsToLower ((opts.styles.getD {}).showgraticules.getD "true") = "true" := by
      rcases hsg with hsg | hsg <;> rw [hsg] <;> decide
    have hf : out.doc.filter SvgElement.isGraticule =
        [.graticulePath 15 15 "#666" "0.5" "2,2"] := by
      rw [hfilter, if_pos hcond]
    exact ⟨hf, by simp [graticuleCount, hf]⟩
  · intro v hv hfalse
    have hne : jsToLower v ≠ "true" := by rw [hfalse]; decide
    have hcond : ¬ jsToLower ((opts.styles.getD {}).showgraticules.getD "true") = "true" := by
      rw [hv]; exact hne
    have hf : out.doc.filter SvgElement.isGraticule = [] := by
      rw [hfilter, if_neg hcond]
    exact ⟨hf, by simp [graticuleCount, hf]⟩

/-- Witness for C8 at a default render (graticules shown, count one). -/
theorem claim8_witness :
    generateMap (fun _ => some ()) {} =
      .ok ⟨[.sphereDef, .clipPathDef, .backgroundUse "white" "black" "0.5",
            .graticulePath 15 15 "#666" "0.5" "2,2", .datasetPath "50mcoastline" "black" "1"],
           ⟨.waterman, .explicit (WIDTH / 10) (WIDTH / 2, HEIGHT / 2), none⟩⟩ ∧
    graticuleCount [.sphereDef, .clipPathDef, .backgroundUse "white" "black" "0.5",
        .graticulePath 15 15 "#666" "0.5" "2,2", .datasetPath "50mcoastline" "black" "1"] = 1 :=
  ⟨rfl,
   ((claim8_graticule_toggle (fun _ => some ()) {}
      ⟨[.sphereDef, .clipPathDef, .backgroundUse "white" "black" "0.5",
        .graticulePath 15 15 "#666" "0.5" "2,2", .datasetPath "50mcoastline" "black" "1"],
       ⟨.waterman, .explicit (WIDTH / 10) (WIDTH / 2, HEIGHT / 2), none⟩⟩ rfl).1 (Or.inl rfl)).2⟩

/-- C9: the graticule path is emitted exactly when the lower-cased merged
showgraticules value is the string `"true"`; any other value (for example
`"true "` with trailing whitespace) behaves like `"false"`. -/
theorem claim9_graticule_exact_true (loader : String → Option Unit) (opts : RenderOptions)
    (out : RenderOutput) (h : generateMap loader opts = .ok out) :
    (∃ e ∈ out.doc, SvgElement.isGraticule e = true) ↔
      jsToLower ((opts.styles.getD {}).showgraticules.getD "true") = "true" := by
  have hdoc := generateMap_ok_doc loader opts out h
  have hms : (mergeStyles (opts.styles.getD {})).showgraticules
      = (opts.styles.getD {}).showgraticules.getD "true" := rfl
  rw [hdoc, ← hms]
  by_cases hg : jsToLower (mergeStyles (opts.styles.getD {})).showgraticules = "true" <;>
    simp [graticuleElems, hg, SvgElement.isGraticule]

/-- Witness for C9: the override `"true "` (trailing whitespace) disables
the graticule even though it is neither `"false"` nor unset. -/
theorem claim9_witness :
    jsToLower "true " ≠ "true" ∧
    ¬ ∃ e ∈ ([.sphereDef, .clipPathDef, .backgroundUse "white" "black" "0.5",
        .datasetPath "50mcoastline" "black" "1"] : List SvgElement),
      SvgElement.isGraticule e = true := by
  refine ⟨by decide, fun hex => ?_⟩
  have hiff := (claim9_graticule_exact_true (fun _ => some ())
      { styles := some { showgraticules := some "true " } }
      ⟨[.sphereDef, .clipPathDef, .backgroundUse "white" "black" "0.5",
        .datasetPath "50mcoastline" "black" "1"],
       ⟨.waterman, .explicit (WIDTH / 10) (WIDTH / 2, HEIGHT / 2), none⟩⟩ rfl).mp hex
  exact absurd hiff (by decide)

/-- C10: components beyond those destructured are silently discarded: the
four-component bounds parse and the two-component center parse depend only
on the first four (respectively two) components, and the concrete inputs
`"1,2,3,4,5"` and `"9,8,7"` behave exactly like `"1,2,3,4"` and
`"9,8"`. -/
theorem claim10_extra_components_ignored (l : List String) (p : Projection) :
    parseBoundsComponents l = parseBoundsComponents (l.take 4) ∧
    parseCenterComponents l = parseCenterComponents (l.take 2) ∧
    applyBounds p "1,2,3,4,5" = applyBounds p "1,2,3,4" ∧
    applyCenter p (some "9,8,7") = applyCenter p (some "9,8") := by
  refine ⟨?_, ?_, rfl, rfl⟩
  · rcases l with _ | ⟨a, _ | ⟨b, _ | ⟨c, _ | ⟨d, rest⟩⟩⟩⟩ <;> rfl
  · rcases l with _ | ⟨a, _ | ⟨b, rest⟩⟩ <;> rfl

end MapGen
